import Mathlib

/-!
Shallow embedding of the DLHub SDK publication pipeline
(src/dlhub_sdk/client.py) and proofs about its claims.

The embedding models the three operations the claims are about:

* `DLHubClient.run` (client.py lines 128-159): invoke a servable.
* `DLHubClient.publish_servable` (client.py lines 161-193): the publish
  orchestrator.
* `DLHubClient.stage_data` (client.py lines 211-244, source name
  `_stage_data`): the content stager.

External collaborators (the HTTP `post` function, the pickle/base64
encoder, the outcome of `model.get_zip_file`, of `model.to_dict`, of the
S3 `put` and of the schema validator) are parameters of the embedding:
each claim quantifies over their behaviour.  Side effects that the claims
mention (temporary-file creation and deletion, uploads, printed
diagnostics, schema validations, HTTP posts) are recorded in an explicit
event trace.
-/

set_option autoImplicit false

universe u v

/-- A Globus SDK HTTP response, as `run` and `publish_servable` see it:
an HTTP status code and a decoded data payload. -/
structure GlobusResponse (β : Type u) where
  http_status : Nat
  data : β
  deriving DecidableEq, Repr

/-- The JSON body `run` sends to the service (client.py lines 144-147):
either a base64-encoded pickle under the key `python`, or the raw inputs
under the key `data`. -/
inductive RunBody (α : Type u) where
  | python (payload : String)
  | data (inputs : α)
  deriving DecidableEq, Repr

/-- A Python-level failure, as the claims distinguish them:
`NotImplementedError`, `ValueError`, a bare `Exception(r)` carrying the
raw HTTP response, or any other exception described by a message. -/
inductive PyError (ρ : Type u) where
  | notImplementedError (msg : String)
  | valueError (msg : String)
  | exceptionWithResponse (resp : ρ)
  | other (msg : String)
  deriving DecidableEq, Repr

/-- `DLHubClient.run` (client.py lines 128-159).

The HTTP layer is the parameter `post`; the pickle + base64 encoding of
line 145 is the opaque parameter `enc`.  The result pairs the Python
outcome (normal return of `r.data`, or a raised error) with the list of
HTTP requests issued, in order. -/
def DLHubClient.run {α : Type u} {β : Type v} (author name : String) (inputs : α)
    (enc : α → String) (input_type : String)
    (post : String → RunBody α → GlobusResponse β) :
    Except (PyError (GlobusResponse β)) β × List (String × RunBody α) :=
  let servable_path := "servables/" ++ author ++ "/" ++ name ++ "/run"
  if input_type = "python" then
    let body := RunBody.python (enc inputs)
    let r := post servable_path body
    if r.http_status ≠ 200 then
      (Except.error (PyError.exceptionWithResponse r), [(servable_path, body)])
    else
      (Except.ok r.data, [(servable_path, body)])
  else if input_type = "json" then
    let body := RunBody.data inputs
    let r := post servable_path body
    if r.http_status ≠ 200 then
      (Except.error (PyError.exceptionWithResponse r), [(servable_path, body)])
    else
      (Except.ok r.data, [(servable_path, body)])
  else if input_type = "files" then
    (Except.error (PyError.notImplementedError "Files support is not yet implemented"), [])
  else
    (Except.error (PyError.valueError ("Input type not recognized: " ++ input_type)), [])

/-- Whether a string begins with the path separator `/`. -/
def startsWithSlash (s : String) : Bool :=
  match s.data with
  | [] => false
  | c :: _ => c = Char.ofNat 47

/-- Whether a string ends with the path separator `/`. -/
def endsWithSlash (s : String) : Bool :=
  match s.data.getLast? with
  | none => false
  | some c => c = Char.ofNat 47

/-- Python `os.path.join` restricted to two components, as `_stage_data`
uses it (client.py lines 232 and 236): an absolute second component
replaces the first, otherwise a single separator is inserted unless the
first component is empty or already ends with one. -/
def osPathJoin (a b : String) : String :=
  if startsWithSlash b = true then b
  else if a = "" ∨ endsWithSlash a = true then a ++ b
  else a ++ "/" ++ b

/-- Python `zip_filename.split("/")[-1]` (client.py line 232): the suffix
of the string after its last `/`, or the whole string when it has none. -/
def lastComponent (s : String) : String :=
  String.mk ((s.data.reverse.takeWhile (fun c => c ≠ Char.ofNat 47)).reverse)

/-- Outcome of `servable.get_zip_file(zip_filename)` (client.py line 230).

Modelled from the spec: `get_zip_file` lives in the metadata model, not
in client.py.  Per the spec, the model materializes its artifact files
into an archive at the given path (it opens the archive for writing
first, then packages each file), so it either succeeds, or raises while
packaging with the archive file already created on disk. -/
inductive ZipOutcome where
  | success
  | failure (msg : String)
  deriving DecidableEq, Repr

/-- Outcome of `s3.Object(bucket, destpath).put(...)` (client.py line 234):
success, `botocore.exceptions.NoCredentialsError`, or any other
exception. -/
inductive PutOutcome where
  | ok
  | noCredentials
  | otherError (msg : String)
  deriving DecidableEq, Repr

/-- The environment of one `_stage_data` call: the fresh uuid of line 221,
the temporary path returned by `mkstemp` on line 225, and the behaviour
of the two external operations inside the `try` block. -/
structure StageEnv where
  uuid : String
  zipFilename : String
  zip : ZipOutcome
  put : PutOutcome
  deriving DecidableEq, Repr

/-- The observable side effects of the pipeline, in program order. -/
inductive Event where
  | tempCreated (path : String)
  | unlink (path : String)
  | upload (bucket : String) (key : String) (acl : String)
  | printed (msg : String)
  | validateSchema (schemaName : String) (ok : Bool)
  | httpPost (endpoint : String)
  deriving DecidableEq, Repr

/-- Outcome of a Python call: a normal return, or a raised exception
described by a message. -/
inductive PyResult (α : Type u) where
  | returned (v : α)
  | raised (e : String)
  deriving DecidableEq, Repr

/-- Result of one `_stage_data` call: its Python outcome, whether the
temporary archive is still on disk afterwards, and the event trace. -/
structure StageRun where
  result : PyResult (Option String)
  onDisk : Bool
  events : List Event
  deriving DecidableEq, Repr

/-- A single-quote character, built by code point so the message below can
reproduce client.py line 239 byte for byte. -/
def singleQuote : String :=
  String.singleton (Char.ofNat 39)

/-- The credential diagnostic of client.py line 239. -/
def credentialMsg : String :=
  "Failed to load AWS credentials. Please check they are configured with " ++
    singleQuote ++ "aws configure" ++ singleQuote ++ "."

/-- `DLHubClient._stage_data` (client.py lines 211-244).

Lines 225-227 create the `mkstemp` placeholder and delete it at once.
The `try` body (lines 229-242) is modelled by a case split on the two
external outcomes; its value is the pending result, whether the archive
file is on disk when the `finally` clause starts, and the events of the
body.  The `finally` clause (line 244) then runs `os.unlink`: if the file
is absent it raises `FileNotFoundError`, discarding the pending result,
exactly as Python would. -/
def DLHubClient.stage_data (env : StageEnv) : StageRun :=
  let preEvents : List Event :=
    [Event.tempCreated env.zipFilename, Event.unlink env.zipFilename]
  let body : PyResult (Option String) × Bool × List Event :=
    match env.zip with
    | ZipOutcome.failure msg =>
        -- get_zip_file created the archive, then raised; caught by
        -- `except Exception` (line 241), which prints and falls through,
        -- so the function would return None.
        (PyResult.returned none, true, [Event.printed ("Publication error: " ++ msg)])
    | ZipOutcome.success =>
        let destpath :=
          osPathJoin (osPathJoin "servables/" env.uuid) (lastComponent env.zipFilename)
        let uploadingMsg := Event.printed ("Uploading: " ++ env.zipFilename)
        match env.put with
        | PutOutcome.ok =>
            let staged_path :=
              osPathJoin (osPathJoin (osPathJoin "s3://" "dlhub-anl") "servables/") env.uuid
            (PyResult.returned (some staged_path), true,
              [uploadingMsg, Event.upload "dlhub-anl" destpath "public-read"])
        | PutOutcome.noCredentials =>
            -- `except botocore.exceptions.NoCredentialsError` (line 238):
            -- print the credential diagnostic and `return None`.
            (PyResult.returned none, true,
              [uploadingMsg, Event.printed credentialMsg])
        | PutOutcome.otherError msg =>
            (PyResult.returned none, true,
              [uploadingMsg, Event.printed ("Publication error: " ++ msg)])
  let pending := body.1
  let archiveOnDisk := body.2.1
  let bodyEvents := body.2.2
  if archiveOnDisk then
    { result := pending, onDisk := false,
      events := preEvents ++ bodyEvents ++ [Event.unlink env.zipFilename] }
  else
    { result := PyResult.raised ("FileNotFoundError: " ++ env.zipFilename),
      onDisk := false,
      events := preEvents ++ bodyEvents }

/-- The serialized metadata mapping, with the parts the pipeline touches
made explicit: an opaque payload for everything else, and the
`dlhub.transfer_method` entry, absent until staging succeeds. -/
structure Metadata (α : Type u) where
  payload : α
  transfer_method : Option (String × String)
  deriving DecidableEq, Repr

/-- The environment of one `publish_servable` call: the outcome of
`model.to_dict(simplify_paths=True)` (line 176, with its ValueError
message when the input/output descriptors are unset), the staging
environment, the verdict of `validate_against_dlhub_schema` (line 187),
and the `task_id` field of the response to the publish post
(lines 190-192). -/
structure PubEnv (α : Type u) where
  toDict : Except String (Metadata α)
  stage : StageEnv
  schemaOk : Bool
  taskId : String

/-- Result of one `publish_servable` call: its Python outcome (the task
id, `None`, or a raised exception), the body sent to the publish post
when one was sent, and the event trace. -/
structure PubRun (α : Type u) where
  result : PyResult (Option String)
  posted : Option (Metadata α)
  events : List Event

/-- `DLHubClient.publish_servable` (client.py lines 161-193).

Line 176 serializes the model; a ValueError there propagates before
anything else happens.  Line 179 stages the data; a falsy reference makes
line 181 return None.  Line 184 injects the transfer method, line 187
validates (raising on failure), and line 190 posts to `publish`. -/
def DLHubClient.publish_servable {α : Type u} (env : PubEnv α) : PubRun α :=
  match env.toDict with
  | Except.error msg => { result := PyResult.raised msg, posted := none, events := [] }
  | Except.ok metadata =>
    let s := DLHubClient.stage_data env.stage
    match s.result with
    | PyResult.raised e =>
        { result := PyResult.raised e, posted := none, events := s.events }
    | PyResult.returned none =>
        { result := PyResult.returned none, posted := none, events := s.events }
    | PyResult.returned (some staged_path) =>
        let metadata' := { metadata with transfer_method := some ("S3", staged_path) }
        if env.schemaOk then
          { result := PyResult.returned (some env.taskId),
            posted := some metadata',
            events := s.events ++
              [Event.validateSchema "servable" true, Event.httpPost "publish"] }
        else
          { result := PyResult.raised "ValidationError", posted := none,
            events := s.events ++ [Event.validateSchema "servable" false] }

/-! ### Helper lemmas shared by several claims -/

/-- The content stager issues no HTTP request: none of its event traces
contains an `httpPost` event. -/
lemma stage_no_httpPost (env : StageEnv) (ep : String) :
    Event.httpPost ep ∉ (DLHubClient.stage_data env).events := by
  obtain ⟨u, z, zo, po⟩ := env
  cases zo <;> cases po <;> simp [DLHubClient.stage_data]

/-- The content stager never invokes the schema validator. -/
lemma stage_no_validate (env : StageEnv) (sn : String) (b : Bool) :
    Event.validateSchema sn b ∉ (DLHubClient.stage_data env).events := by
  obtain ⟨u, z, zo, po⟩ := env
  cases zo <;> cases po <;> simp [DLHubClient.stage_data]

/-- A staging run where packaging raised, or the upload raised something
other than `NoCredentialsError`, returns `None`. -/
lemma stage_failure_returns_none (env : StageEnv)
    (hf : (∃ m, env.zip = ZipOutcome.failure m) ∨
      (env.zip = ZipOutcome.success ∧ ∃ m, env.put = PutOutcome.otherError m)) :
    (DLHubClient.stage_data env).result = PyResult.returned none := by
  obtain ⟨u, z, zo, po⟩ := env
  rcases hf with ⟨m, hm⟩ | ⟨hz, m, hm⟩ <;> subst hm
  · rfl
  · subst hz; rfl

/-! ### Claims -/

/-- C2: on every exit path of `_stage_data` -- successful upload,
missing-credentials failure, or any other exception raised during
packaging or upload -- the temporary archive is deleted before the call
returns (the last recorded event is the `finally` unlink of the archive
path), its file is no longer on disk, the deletion itself never fails,
and the call returns normally rather than raising. -/
theorem stage_always_deletes_archive (env : StageEnv) :
    (∃ v, (DLHubClient.stage_data env).result = PyResult.returned v) ∧
    (DLHubClient.stage_data env).onDisk = false ∧
    (DLHubClient.stage_data env).events.getLast? = some (Event.unlink env.zipFilename) := by
  obtain ⟨u, z, zo, po⟩ := env
  cases zo <;> cases po <;> exact ⟨⟨_, rfl⟩, rfl, rfl⟩

/-- C5 counterexample: the claim as stated fails on the code at invalid
credentials. When the S3 put raises the generic botocore client error
that invalid credentials produce, the handler of line 241 prints the
generic publication-error diagnostic; the distinct credential message of
line 239 is never printed, although staging still returns `None`. -/
theorem stage_invalid_credentials_not_reported_distinctly :
    (DLHubClient.stage_data
        ⟨"u5", "/tmp/t5.zip", ZipOutcome.success,
          PutOutcome.otherError
            "An error occurred (InvalidAccessKeyId) when calling the PutObject operation"⟩).result
      = PyResult.returned none ∧
    Event.printed credentialMsg ∉ (DLHubClient.stage_data
        ⟨"u5", "/tmp/t5.zip", ZipOutcome.success,
          PutOutcome.otherError
            "An error occurred (InvalidAccessKeyId) when calling the PutObject operation"⟩).events ∧
    Event.printed ("Publication error: " ++
        "An error occurred (InvalidAccessKeyId) when calling the PutObject operation")
      ∈ (DLHubClient.stage_data
        ⟨"u5", "/tmp/t5.zip", ZipOutcome.success,
          PutOutcome.otherError
            "An error occurred (InvalidAccessKeyId) when calling the PutObject operation"⟩).events := by
  decide

/-- C5 (amended): when object-storage credentials are absent during
staging, the `NoCredentialsError` handler of line 238 prints the
distinct credential diagnostic of line 239 and `_stage_data` returns
`None` rather than raising; when they are invalid, the resulting generic
botocore error is handled by the bare `except Exception` of line 241, so
`_stage_data` still returns `None` without raising, but reports with the
generic publication-error diagnostic and never with the distinct
credential message. -/
theorem stage_credential_failures_report_and_return_none (env : StageEnv)
    (hz : env.zip = ZipOutcome.success) :
    (env.put = PutOutcome.noCredentials →
      (DLHubClient.stage_data env).result = PyResult.returned none ∧
      Event.printed credentialMsg ∈ (DLHubClient.stage_data env).events) ∧
    (∀ m, env.put = PutOutcome.otherError m →
      (DLHubClient.stage_data env).result = PyResult.returned none ∧
      Event.printed ("Publication error: " ++ m) ∈ (DLHubClient.stage_data env).events ∧
      Event.printed credentialMsg ∉ (DLHubClient.stage_data env).events) := by
  obtain ⟨u, z, zo, po⟩ := env
  cases hz
  constructor
  · intro hp
    cases hp
    exact ⟨rfl, by simp [DLHubClient.stage_data]⟩
  · intro m hp
    cases hp
    refine ⟨rfl, by simp [DLHubClient.stage_data], ?_⟩
    intro hmem
    have hF : credentialMsg.data.head? = some (Char.ofNat 70) := rfl
    have hU : ∀ t : String, ("Uploading: " ++ t).data.head? = some (Char.ofNat 85) :=
      fun t => rfl
    have hP : ∀ t : String, ("Publication error: " ++ t).data.head? = some (Char.ofNat 80) :=
      fun t => rfl
    simp [DLHubClient.stage_data] at hmem
    rcases hmem with hs | hs
    · have hd := congrArg (fun s => s.data.head?) hs
      simp only [hF, hU] at hd
      exact absurd hd (by decide)
    · have hd := congrArg (fun s => s.data.head?) hs
      simp only [hF, hP] at hd
      exact absurd hd (by decide)

/-- Witness for the amended C5, applying it once at a concrete
missing-credentials environment and once at a concrete
invalid-credentials environment. -/
theorem stage_credential_failures_witness :
    ((DLHubClient.stage_data
        ⟨"u5a", "/tmp/t5a.zip", ZipOutcome.success, PutOutcome.noCredentials⟩).result
        = PyResult.returned none ∧
      Event.printed credentialMsg ∈ (DLHubClient.stage_data
        ⟨"u5a", "/tmp/t5a.zip", ZipOutcome.success, PutOutcome.noCredentials⟩).events) ∧
    ((DLHubClient.stage_data
        ⟨"u5b", "/tmp/t5b.zip", ZipOutcome.success, PutOutcome.otherError "AccessDenied"⟩).result
        = PyResult.returned none ∧
      Event.printed ("Publication error: " ++ "AccessDenied") ∈ (DLHubClient.stage_data
        ⟨"u5b", "/tmp/t5b.zip", ZipOutcome.success, PutOutcome.otherError "AccessDenied"⟩).events ∧
      Event.printed credentialMsg ∉ (DLHubClient.stage_data
        ⟨"u5b", "/tmp/t5b.zip", ZipOutcome.success, PutOutcome.otherError "AccessDenied"⟩).events) := by
  have h1 := (stage_credential_failures_report_and_return_none
    ⟨"u5a", "/tmp/t5a.zip", ZipOutcome.success, PutOutcome.noCredentials⟩ rfl).1 rfl
  have h2 := (stage_credential_failures_report_and_return_none
    ⟨"u5b", "/tmp/t5b.zip", ZipOutcome.success, PutOutcome.otherError "AccessDenied"⟩ rfl).2
    "AccessDenied" rfl
  exact ⟨h1, h2⟩

/-- C6: `run` with input type `files` fails with the
`NotImplementedError` of line 149 and issues zero HTTP requests, for
every author, name, inputs, encoder and HTTP layer. -/
theorem run_files_fails_without_requests {α : Type u} {β : Type v}
    (author name : String) (inputs : α) (enc : α → String)
    (post : String → RunBody α → GlobusResponse β) :
    DLHubClient.run author name inputs enc "files" post =
      (Except.error (PyError.notImplementedError "Files support is not yet implemented"), []) :=
  rfl

/-- C7: `run` with an input type outside python, json and files fails
with the `ValueError` of line 151, whose message names the received
value, and issues zero HTTP requests. -/
theorem run_unknown_input_type_fails_without_requests {α : Type u} {β : Type v}
    (author name : String) (inputs : α) (enc : α → String) (input_type : String)
    (post : String → RunBody α → GlobusResponse β)
    (h1 : input_type ≠ "python") (h2 : input_type ≠ "json") (h3 : input_type ≠ "files") :
    DLHubClient.run author name inputs enc input_type post =
      (Except.error (PyError.valueError ("Input type not recognized: " ++ input_type)), []) := by
  simp [DLHubClient.run, h1, h2, h3]

/-- Witness for C7 at the concrete unrecognized input type xml: the
error message names the value xml. -/
theorem run_unknown_input_type_witness :
    ("xml" : String) ≠ "python" ∧ ("xml" : String) ≠ "json" ∧ ("xml" : String) ≠ "files" ∧
    DLHubClient.run "ryan" "noop" (0 : Nat) (fun _ => "") "xml"
        (fun _ _ => ({ http_status := 200, data := 0 } : GlobusResponse Nat)) =
      (Except.error (PyError.valueError "Input type not recognized: xml"), []) := by
  have h := run_unknown_input_type_fails_without_requests "ryan" "noop" (0 : Nat)
    (fun _ => "") "xml" (fun _ _ => ({ http_status := 200, data := 0 } : GlobusResponse Nat))
    (by decide) (by decide) (by decide)
  exact ⟨by decide, by decide, by decide, h.trans rfl⟩

/-! ### Unfolding lemmas for `publish_servable` -/

/-- When serialization raises, `publish_servable` propagates the error
with no side effects. -/
lemma publish_unfold_toDict_error {α : Type u} (env : PubEnv α) (msg : String)
    (hmd : env.toDict = Except.error msg) :
    DLHubClient.publish_servable env =
      { result := PyResult.raised msg, posted := none, events := [] } := by
  simp [DLHubClient.publish_servable, hmd]

/-- When staging raises, `publish_servable` propagates the exception. -/
lemma publish_unfold_stage_raised {α : Type u} (env : PubEnv α) (md : Metadata α) (e : String)
    (hmd : env.toDict = Except.ok md)
    (hs : (DLHubClient.stage_data env.stage).result = PyResult.raised e) :
    DLHubClient.publish_servable env =
      { result := PyResult.raised e, posted := none,
        events := (DLHubClient.stage_data env.stage).events } := by
  simp [DLHubClient.publish_servable, hmd, hs]

/-- When staging returns `None`, `publish_servable` returns `None` with
only the staging side effects. -/
lemma publish_unfold_stage_none {α : Type u} (env : PubEnv α) (md : Metadata α)
    (hmd : env.toDict = Except.ok md)
    (hs : (DLHubClient.stage_data env.stage).result = PyResult.returned none) :
    DLHubClient.publish_servable env =
      { result := PyResult.returned none, posted := none,
        events := (DLHubClient.stage_data env.stage).events } := by
  simp [DLHubClient.publish_servable, hmd, hs]

/-- When staging succeeds and validation passes, `publish_servable`
validates, posts and returns the task id. -/
lemma publish_unfold_staged_valid {α : Type u} (env : PubEnv α) (md : Metadata α) (p : String)
    (hmd : env.toDict = Except.ok md)
    (hs : (DLHubClient.stage_data env.stage).result = PyResult.returned (some p))
    (hok : env.schemaOk = true) :
    DLHubClient.publish_servable env =
      { result := PyResult.returned (some env.taskId),
        posted := some { md with transfer_method := some ("S3", p) },
        events := (DLHubClient.stage_data env.stage).events ++
          [Event.validateSchema "servable" true, Event.httpPost "publish"] } := by
  simp [DLHubClient.publish_servable, hmd, hs, hok]

/-- When staging succeeds and validation fails, `publish_servable` raises
the validation error without posting. -/
lemma publish_unfold_staged_invalid {α : Type u} (env : PubEnv α) (md : Metadata α) (p : String)
    (hmd : env.toDict = Except.ok md)
    (hs : (DLHubClient.stage_data env.stage).result = PyResult.returned (some p))
    (hok : env.schemaOk = false) :
    DLHubClient.publish_servable env =
      { result := PyResult.raised "ValidationError", posted := none,
        events := (DLHubClient.stage_data env.stage).events ++
          [Event.validateSchema "servable" false] } := by
  simp [DLHubClient.publish_servable, hmd, hs, hok]

/-- C1: whenever `_stage_data` returns no storage reference,
`publish_servable` returns `None`, sends no request body, and issues no
HTTP publish request. -/
theorem publish_returns_none_when_stage_yields_none {α : Type u} (env : PubEnv α)
    (md : Metadata α) (hmd : env.toDict = Except.ok md)
    (hs : (DLHubClient.stage_data env.stage).result = PyResult.returned none) :
    (DLHubClient.publish_servable env).result = PyResult.returned none ∧
    (DLHubClient.publish_servable env).posted = none ∧
    Event.httpPost "publish" ∉ (DLHubClient.publish_servable env).events := by
  rw [publish_unfold_stage_none env md hmd hs]
  exact ⟨rfl, rfl, stage_no_httpPost env.stage "publish"⟩

/-- Witness for C1: the missing-credentials scenario, in which staging
returns `None` and the publish aborts with no publish request. -/
theorem publish_returns_none_when_stage_yields_none_witness :
    (DLHubClient.stage_data
        ⟨"u1", "/tmp/t1.zip", ZipOutcome.success, PutOutcome.noCredentials⟩).result
      = PyResult.returned none ∧
    (DLHubClient.publish_servable
        (⟨Except.ok ⟨0, none⟩,
          ⟨"u1", "/tmp/t1.zip", ZipOutcome.success, PutOutcome.noCredentials⟩,
          true, "task-1"⟩ : PubEnv Nat)).result = PyResult.returned none ∧
    Event.httpPost "publish" ∉ (DLHubClient.publish_servable
        (⟨Except.ok ⟨0, none⟩,
          ⟨"u1", "/tmp/t1.zip", ZipOutcome.success, PutOutcome.noCredentials⟩,
          true, "task-1"⟩ : PubEnv Nat)).events := by
  have h := publish_returns_none_when_stage_yields_none
    (⟨Except.ok ⟨0, none⟩,
      ⟨"u1", "/tmp/t1.zip", ZipOutcome.success, PutOutcome.noCredentials⟩,
      true, "task-1"⟩ : PubEnv Nat) ⟨0, none⟩ rfl (by decide)
  exact ⟨by decide, h.1, h.2.2⟩

/-- C10: `publish_servable` serializes the model before staging, so a
serialization failure propagates before any temporary archive, upload or
HTTP request happens: the event trace is empty. -/
theorem publish_serializes_before_side_effects {α : Type u} (env : PubEnv α) (msg : String)
    (h : env.toDict = Except.error msg) :
    (DLHubClient.publish_servable env).result = PyResult.raised msg ∧
    (DLHubClient.publish_servable env).posted = none ∧
    (DLHubClient.publish_servable env).events = [] := by
  rw [publish_unfold_toDict_error env msg h]
  exact ⟨rfl, rfl, rfl⟩

/-- Witness for C10: a model whose serialization raises the precondition
error produces a propagated error and an empty event trace. -/
theorem publish_serializes_before_side_effects_witness :
    (DLHubClient.publish_servable
        (⟨Except.error "Inputs are not defined",
          ⟨"u0", "/tmp/t0.zip", ZipOutcome.success, PutOutcome.ok⟩,
          true, "task-0"⟩ : PubEnv Nat)).result = PyResult.raised "Inputs are not defined" ∧
    (DLHubClient.publish_servable
        (⟨Except.error "Inputs are not defined",
          ⟨"u0", "/tmp/t0.zip", ZipOutcome.success, PutOutcome.ok⟩,
          true, "task-0"⟩ : PubEnv Nat)).events = [] := by
  have h := publish_serializes_before_side_effects
    (⟨Except.error "Inputs are not defined",
      ⟨"u0", "/tmp/t0.zip", ZipOutcome.success, PutOutcome.ok⟩,
      true, "task-0"⟩ : PubEnv Nat) "Inputs are not defined" rfl
  exact ⟨h.1, h.2.2⟩

/-- C3: in every execution of `publish_servable` the schema validator is
invoked only after staging returned a reference, the publish post is
never issued when validation fails, and a validation failure makes the
call raise instead of returning a task id. -/
theorem validate_only_after_stage_success {α : Type u} (env : PubEnv α) :
    (∀ b : Bool,
        Event.validateSchema "servable" b ∈ (DLHubClient.publish_servable env).events →
        ∃ p, (DLHubClient.stage_data env.stage).result = PyResult.returned (some p)) ∧
    (env.schemaOk = false →
      Event.httpPost "publish" ∉ (DLHubClient.publish_servable env).events) ∧
    (env.schemaOk = false →
      (∃ md, env.toDict = Except.ok md) →
      (∃ p, (DLHubClient.stage_data env.stage).result = PyResult.returned (some p)) →
      (DLHubClient.publish_servable env).result = PyResult.raised "ValidationError") := by
  rcases hmd : env.toDict with msg | md
  · rw [publish_unfold_toDict_error env msg hmd]
    refine ⟨?_, ?_, ?_⟩
    · intro b hb
      exact absurd hb (by simp)
    · intro _
      simp
    · intro _ hmd2 _
      obtain ⟨md, hmd2⟩ := hmd2
      exact absurd hmd2 (by simp)
  · cases hst : (DLHubClient.stage_data env.stage).result with
    | raised e =>
      rw [publish_unfold_stage_raised env md e hmd hst]
      refine ⟨?_, ?_, ?_⟩
      · intro b hb
        exact absurd hb (stage_no_validate env.stage "servable" b)
      · intro _
        exact stage_no_httpPost env.stage "publish"
      · intro _ _ hp
        obtain ⟨p, hp⟩ := hp
        exact absurd hp (by simp)
    | returned v =>
      cases v with
      | none =>
        rw [publish_unfold_stage_none env md hmd hst]
        refine ⟨?_, ?_, ?_⟩
        · intro b hb
          exact absurd hb (stage_no_validate env.stage "servable" b)
        · intro _
          exact stage_no_httpPost env.stage "publish"
        · intro _ _ hp
          obtain ⟨p, hp⟩ := hp
          exact absurd hp (by simp)
      | some p =>
        by_cases hok : env.schemaOk = true
        · rw [publish_unfold_staged_valid env md p hmd hst hok]
          refine ⟨?_, ?_, ?_⟩
          · intro b _
            exact ⟨p, rfl⟩
          · intro hso
            rw [hok] at hso
            exact absurd hso (by simp)
          · intro hso
            rw [hok] at hso
            exact absurd hso (by simp)
        · have hok2 : env.schemaOk = false := by
            simpa using hok
          rw [publish_unfold_staged_invalid env md p hmd hst hok2]
          refine ⟨?_, ?_, ?_⟩
          · intro b _
            exact ⟨p, rfl⟩
          · intro _
            have hnp := stage_no_httpPost env.stage "publish"
            simp [hnp]
          · intro _ _ _
            rfl

/-- Witness for C3: with a failing validator after a successful staging,
the validator runs after staging returned a reference, the publish post
is absent and the call raises the validation error. -/
theorem validate_only_after_stage_success_witness :
    Event.httpPost "publish" ∉ (DLHubClient.publish_servable
        (⟨Except.ok ⟨0, none⟩, ⟨"w3", "/tmp/t3.zip", ZipOutcome.success, PutOutcome.ok⟩,
          false, "task-3"⟩ : PubEnv Nat)).events ∧
    (DLHubClient.publish_servable
        (⟨Except.ok ⟨0, none⟩, ⟨"w3", "/tmp/t3.zip", ZipOutcome.success, PutOutcome.ok⟩,
          false, "task-3"⟩ : PubEnv Nat)).result = PyResult.raised "ValidationError" ∧
    (DLHubClient.stage_data
        (⟨Except.ok ⟨0, none⟩, ⟨"w3", "/tmp/t3.zip", ZipOutcome.success, PutOutcome.ok⟩,
          false, "task-3"⟩ : PubEnv Nat).stage).result
      = PyResult.returned (some "s3://dlhub-anl/servables/w3") := by
  have h := validate_only_after_stage_success
    (⟨Except.ok ⟨0, none⟩, ⟨"w3", "/tmp/t3.zip", ZipOutcome.success, PutOutcome.ok⟩,
      false, "task-3"⟩ : PubEnv Nat)
  have hp : (DLHubClient.stage_data
      (⟨Except.ok ⟨0, none⟩, ⟨"w3", "/tmp/t3.zip", ZipOutcome.success, PutOutcome.ok⟩,
        false, "task-3"⟩ : PubEnv Nat).stage).result
      = PyResult.returned (some "s3://dlhub-anl/servables/w3") := by decide
  exact ⟨h.2.1 rfl, h.2.2 rfl ⟨⟨0, none⟩, rfl⟩ ⟨_, hp⟩, hp⟩

/-- C9: a staging failure other than missing credentials, raised after
the archive was created (packaging failure or any other upload error),
makes `_stage_data` return `None` instead of propagating, with the same
return value as the credential case, and `publish_servable` then returns
`None` without issuing the publish request. -/
theorem stage_nonfatal_failures_like_credentials {α : Type u} (env : PubEnv α)
    (md : Metadata α) (hmd : env.toDict = Except.ok md)
    (hf : (∃ m, env.stage.zip = ZipOutcome.failure m) ∨
      (env.stage.zip = ZipOutcome.success ∧ ∃ m, env.stage.put = PutOutcome.otherError m)) :
    (DLHubClient.stage_data env.stage).result = PyResult.returned none ∧
    (DLHubClient.stage_data env.stage).result =
      (DLHubClient.stage_data
        { env.stage with zip := ZipOutcome.success, put := PutOutcome.noCredentials }).result ∧
    (DLHubClient.publish_servable env).result = PyResult.returned none ∧
    Event.httpPost "publish" ∉ (DLHubClient.publish_servable env).events := by
  have h0 := stage_failure_returns_none env.stage hf
  have hcred : (DLHubClient.stage_data
      { env.stage with zip := ZipOutcome.success, put := PutOutcome.noCredentials }).result
      = PyResult.returned none := rfl
  rw [publish_unfold_stage_none env md hmd h0]
  exact ⟨h0, h0.trans hcred.symm, rfl, stage_no_httpPost env.stage "publish"⟩

/-- Witness for C9: a packaging failure after archive creation yields
`None` from staging and from the publish, with no publish request. -/
theorem stage_nonfatal_failures_like_credentials_witness :
    (DLHubClient.stage_data ⟨"w9", "/tmp/t9.zip", ZipOutcome.failure "boom", PutOutcome.ok⟩).result
      = PyResult.returned none ∧
    (DLHubClient.publish_servable
        (⟨Except.ok ⟨0, none⟩, ⟨"w9", "/tmp/t9.zip", ZipOutcome.failure "boom", PutOutcome.ok⟩,
          true, "task-9"⟩ : PubEnv Nat)).result = PyResult.returned none ∧
    Event.httpPost "publish" ∉ (DLHubClient.publish_servable
        (⟨Except.ok ⟨0, none⟩, ⟨"w9", "/tmp/t9.zip", ZipOutcome.failure "boom", PutOutcome.ok⟩,
          true, "task-9"⟩ : PubEnv Nat)).events := by
  have h := stage_nonfatal_failures_like_credentials
    (⟨Except.ok ⟨0, none⟩, ⟨"w9", "/tmp/t9.zip", ZipOutcome.failure "boom", PutOutcome.ok⟩,
      true, "task-9"⟩ : PubEnv Nat) ⟨0, none⟩ rfl (Or.inl ⟨"boom", rfl⟩)
  exact ⟨h.1, h.2.2.1, h.2.2.2⟩

/-- Joining onto a component that ends with the separator appends
directly, as Python os.path.join does. -/
lemma osPathJoin_of_endSlash (a b : String) (ha : endsWithSlash a = true)
    (hb : startsWithSlash b = false) : osPathJoin a b = a ++ b := by
  simp [osPathJoin, ha, hb]

/-- Joining onto a nonempty component that does not end with the
separator inserts exactly one separator. -/
lemma osPathJoin_of_sep (a b : String) (ha0 : a ≠ "") (ha : endsWithSlash a = false)
    (hb : startsWithSlash b = false) : osPathJoin a b = a ++ "/" ++ b := by
  simp [osPathJoin, ha0, ha, hb]

/-- C4: on a successful upload, `_stage_data` returns the parent
directory URI `s3://dlhub-anl/servables/<uuid>` built from the fixed
bucket, the fixed top level key component and the fresh uuid, the single
upload writes the object key `servables/<uuid>/<archive-basename>` with
the public-read ACL, and the returned URI differs from the full object
URI (it is the parent location, not the object key). -/
theorem stage_success_returns_parent_directory_uri (env : StageEnv)
    (hz : env.zip = ZipOutcome.success) (hp : env.put = PutOutcome.ok)
    (hu : startsWithSlash env.uuid = false)
    (hue : endsWithSlash ("servables/" ++ env.uuid) = false)
    (hb : startsWithSlash (lastComponent env.zipFilename) = false) :
    (DLHubClient.stage_data env).result =
      PyResult.returned (some ("s3://dlhub-anl/servables/" ++ env.uuid)) ∧
    (DLHubClient.stage_data env).events =
      [Event.tempCreated env.zipFilename, Event.unlink env.zipFilename,
        Event.printed ("Uploading: " ++ env.zipFilename),
        Event.upload "dlhub-anl"
          ("servables/" ++ env.uuid ++ "/" ++ lastComponent env.zipFilename) "public-read",
        Event.unlink env.zipFilename] ∧
    "s3://dlhub-anl/servables/" ++ env.uuid ≠
      "s3://" ++ "dlhub-anl" ++ "/" ++
        ("servables/" ++ env.uuid ++ "/" ++ lastComponent env.zipFilename) := by
  have hne : ("servables/" ++ env.uuid) ≠ "" := by
    intro hcon
    have h2 := congrArg String.length hcon
    rw [String.length_append] at h2
    have l5 : ("servables/" : String).length = 10 := rfl
    have l0 : ("" : String).length = 0 := rfl
    omega
  have j1 : osPathJoin (osPathJoin "s3://" "dlhub-anl") "servables/"
      = "s3://dlhub-anl/servables/" := by decide
  have j3 : osPathJoin "s3://dlhub-anl/servables/" env.uuid
      = "s3://dlhub-anl/servables/" ++ env.uuid :=
    osPathJoin_of_endSlash _ _ (by decide) hu
  have j4 : osPathJoin "servables/" env.uuid = "servables/" ++ env.uuid :=
    osPathJoin_of_endSlash _ _ (by decide) hu
  have j5 : osPathJoin ("servables/" ++ env.uuid) (lastComponent env.zipFilename)
      = "servables/" ++ env.uuid ++ "/" ++ lastComponent env.zipFilename :=
    osPathJoin_of_sep _ _ hne hue hb
  refine ⟨?_, ?_, ?_⟩
  · simp only [DLHubClient.stage_data, hz, hp, j1, j3, j4, j5, if_true]
  · simp only [DLHubClient.stage_data, hz, hp, j1, j3, j4, j5, if_true]
    rfl
  · intro hcon
    have h2 := congrArg String.length hcon
    simp only [String.length_append] at h2
    have l1 : ("s3://dlhub-anl/servables/" : String).length = 25 := rfl
    have l2 : ("s3://" : String).length = 5 := rfl
    have l3 : ("dlhub-anl" : String).length = 9 := rfl
    have l4 : ("/" : String).length = 1 := rfl
    have l5 : ("servables/" : String).length = 10 := rfl
    omega

/-- Witness for C4 at a concrete uuid and archive path. -/
theorem stage_success_returns_parent_directory_uri_witness :
    startsWithSlash "0a1b" = false ∧
    endsWithSlash ("servables/" ++ "0a1b") = false ∧
    startsWithSlash (lastComponent "/tmp/tmpabc.zip") = false ∧
    (DLHubClient.stage_data ⟨"0a1b", "/tmp/tmpabc.zip", ZipOutcome.success, PutOutcome.ok⟩).result
      = PyResult.returned (some "s3://dlhub-anl/servables/0a1b") ∧
    Event.upload "dlhub-anl" "servables/0a1b/tmpabc.zip" "public-read"
      ∈ (DLHubClient.stage_data
          ⟨"0a1b", "/tmp/tmpabc.zip", ZipOutcome.success, PutOutcome.ok⟩).events := by
  have h := stage_success_returns_parent_directory_uri
    ⟨"0a1b", "/tmp/tmpabc.zip", ZipOutcome.success, PutOutcome.ok⟩
    rfl rfl (by decide) (by decide) (by decide)
  refine ⟨by decide, by decide, by decide, h.1.trans (by decide), ?_⟩
  rw [h.2.1]
  decide

/-- C8: once `run` reaches the HTTP call (input type python or json), a
response status other than 200 raises an `Exception` carrying the raw
response, and a 200 response makes `run` return the decoded data; in both
cases exactly the one request was issued. -/
theorem run_http_status_determines_result {α : Type u} {β : Type v}
    (author name : String) (inputs : α) (enc : α → String) (input_type : String)
    (post : String → RunBody α → GlobusResponse β)
    (h : input_type = "python" ∨ input_type = "json") :
    ((post ("servables/" ++ author ++ "/" ++ name ++ "/run")
          (if input_type = "python" then RunBody.python (enc inputs)
            else RunBody.data inputs)).http_status ≠ 200 →
      DLHubClient.run author name inputs enc input_type post =
        (Except.error (PyError.exceptionWithResponse
            (post ("servables/" ++ author ++ "/" ++ name ++ "/run")
              (if input_type = "python" then RunBody.python (enc inputs)
                else RunBody.data inputs))),
          [("servables/" ++ author ++ "/" ++ name ++ "/run",
            if input_type = "python" then RunBody.python (enc inputs)
              else RunBody.data inputs)])) ∧
    ((post ("servables/" ++ author ++ "/" ++ name ++ "/run")
          (if input_type = "python" then RunBody.python (enc inputs)
            else RunBody.data inputs)).http_status = 200 →
      DLHubClient.run author name inputs enc input_type post =
        (Except.ok (post ("servables/" ++ author ++ "/" ++ name ++ "/run")
            (if input_type = "python" then RunBody.python (enc inputs)
              else RunBody.data inputs)).data,
          [("servables/" ++ author ++ "/" ++ name ++ "/run",
            if input_type = "python" then RunBody.python (enc inputs)
              else RunBody.data inputs)])) := by
  rcases h with h | h <;> subst h <;>
    refine ⟨fun hst => ?_, fun hst => ?_⟩ <;>
    simp at hst <;>
    simp [DLHubClient.run, hst]

/-- Witness for C8: a 404 response raises with the raw response attached
and a 200 response returns the data, each after the single request. -/
theorem run_http_status_determines_result_witness :
    DLHubClient.run "a" "b" (0 : Nat) (fun _ => "") "json"
        (fun _ _ => ({ http_status := 404, data := 7 } : GlobusResponse Nat)) =
      (Except.error (PyError.exceptionWithResponse { http_status := 404, data := 7 }),
        [("servables/a/b/run", RunBody.data 0)]) ∧
    DLHubClient.run "a" "b" (0 : Nat) (fun _ => "") "json"
        (fun _ _ => ({ http_status := 200, data := 7 } : GlobusResponse Nat)) =
      (Except.ok 7, [("servables/a/b/run", RunBody.data 0)]) := by
  have h1 := (run_http_status_determines_result "a" "b" (0 : Nat) (fun _ => "") "json"
    (fun _ _ => ({ http_status := 404, data := 7 } : GlobusResponse Nat)) (Or.inr rfl)).1
    (by decide)
  have h2 := (run_http_status_determines_result "a" "b" (0 : Nat) (fun _ => "") "json"
    (fun _ _ => ({ http_status := 200, data := 7 } : GlobusResponse Nat)) (Or.inr rfl)).2
    (by decide)
  exact ⟨h1.trans rfl, h2.trans rfl⟩
